import Mathlib

/-!
Verification of the scroll-to-camera mapping engine of the Spectra
single-page experience.  The definitions below are shallow embeddings of
the functions in `src/unnamed/part_001`: the pause-zone transform
(`applyScrollPauses`), the section resolver and camera-parameter windows
of the scroll handler (`handleScroll` inside `CameraController`), the
frame-rate independent damping helper (`smoothDamp`), and the
`ParticleSystem` per-frame update.  Rational numbers stand for exact
real-valued arithmetic; a separate small model of IEEE-754 special
values (`JSVal`) is used where division by zero matters.
-/

namespace Spectra

/-- A pause zone, `{ center, pauseAmount }`, from `PAUSE_ZONES`. -/
structure PauseZone where
  center : ℚ
  pauseAmount : ℚ
deriving DecidableEq

/-- The `PAUSE_ZONES` constant of the source: seven zones, one per event. -/
def PAUSE_ZONES : List PauseZone :=
  [⟨750, 3/200⟩, ⟨1750, 3/200⟩, ⟨2750, 3/200⟩, ⟨3750, 3/200⟩,
   ⟨4750, 3/200⟩, ⟨5750, 3/200⟩, ⟨6750, 3/200⟩]

/-- `zoneProgressCenter = zone.center / 7000` in `applyScrollPauses`. -/
def zoneProgressCenter (z : PauseZone) : ℚ := z.center / 7000

/-- `pauseStart = zoneProgressCenter - 0.01` in `applyScrollPauses`. -/
def zonePauseStart (z : PauseZone) : ℚ := zoneProgressCenter z - 1/100

/-- `pauseEnd = zoneProgressCenter + zone.pauseAmount + 0.01`. -/
def zonePauseEnd (z : PauseZone) : ℚ :=
  zoneProgressCenter z + z.pauseAmount + 1/100

/-- The value returned by `applyScrollPauses` when the (pause-corrected)
adjusted progress `x` lies inside the band of zone `z`: the entering /
holding / exiting three-way branch of the source. -/
def bandOut (z : PauseZone) (x : ℚ) : ℚ :=
  let distFromStart := x - zonePauseStart z
  let zoneWidth := zonePauseEnd z - zonePauseStart z
  if distFromStart < zoneWidth * (3/10) then
    zonePauseStart z + distFromStart * (3/10)
  else if distFromStart > zoneWidth * (7/10) then
    zoneProgressCenter z +
      ((distFromStart - zoneWidth * (7/10)) / (zoneWidth * (3/10))) * (1/100)
  else
    zoneProgressCenter z

/-- The `for (const zone of PAUSE_ZONES)` loop of `applyScrollPauses`,
with the running `accumulatedPause` made explicit.  A zone whose band
contains the corrected progress returns immediately; a fully passed zone
adds its `pauseAmount` to the accumulator; after the loop the source
returns `Math.min(1, adjustedProgress - accumulatedPause)`. -/
def pauseLoop (adjusted : ℚ) : List PauseZone → ℚ → ℚ
  | [], acc => min 1 (adjusted - acc)
  | z :: rest, acc =>
    if zonePauseStart z ≤ adjusted - acc ∧ adjusted - acc ≤ zonePauseEnd z then
      bandOut z (adjusted - acc)
    else
      pauseLoop adjusted rest
        (if adjusted - acc > zonePauseEnd z then acc + z.pauseAmount else acc)

/-- `PAUSE_ZONES.reduce((sum, zone) => sum + zone.pauseAmount, 0)`. -/
def totalPauseAmount (zs : List PauseZone) : ℚ :=
  zs.foldl (fun s z => s + z.pauseAmount) 0

/-- `applyScrollPauses`: scale raw progress by the effective scroll range
and walk the pause zones. -/
def applyScrollPauses (rawProgress : ℚ) : ℚ :=
  let effectiveScrollRange := 1 + totalPauseAmount PAUSE_ZONES
  pauseLoop (rawProgress * effectiveScrollRange) PAUSE_ZONES 0

/-- Closed form of the in-band branch for the configured
`pauseAmount = 3/200`: the band has width `7/200`, the entering
threshold is `21/2000`, the exiting threshold `49/2000`, and the exit
ramp has slope `20/21`. -/
def bandShape (c x : ℚ) : ℚ :=
  let d := x - (c - 1/100)
  if d < 21/2000 then (c - 1/100) + d * (3/10)
  else if d > 49/2000 then c + (d - 49/2000) * (20/21)
  else c

lemma bandOut_eq_bandShape (z : PauseZone) (hp : z.pauseAmount = 3/200)
    (x : ℚ) : bandOut z x = bandShape (zoneProgressCenter z) x := by
  have hpe : zonePauseEnd z = zoneProgressCenter z + 3/200 + 1/100 := by
    simp only [zonePauseEnd, hp]
  simp only [bandOut, bandShape, zonePauseStart, hpe]
  generalize zoneProgressCenter z = c
  split_ifs <;> first | linarith | ring

lemma bandShape_ge (c x : ℚ) (hx : c - 1/100 ≤ x) :
    c - 1/100 ≤ bandShape c x := by
  simp only [bandShape]
  split_ifs <;> nlinarith

lemma bandShape_le_x (c x : ℚ) (hx : c - 1/100 ≤ x) :
    bandShape c x ≤ x := by
  simp only [bandShape]
  split_ifs <;> nlinarith

lemma bandShape_le (c x : ℚ) (hx : x ≤ c + 1/40) :
    bandShape c x ≤ c + 1/100 := by
  simp only [bandShape]
  split_ifs <;> nlinarith

lemma bandShape_mono (c x₁ x₂ : ℚ) (h : x₁ ≤ x₂) :
    bandShape c x₁ ≤ bandShape c x₂ := by
  simp only [bandShape]
  split_ifs <;> nlinarith

/-- Well-formedness of a pause-zone list, as configured in the source:
every `pauseAmount` is `0.015`, every band lies inside `[0, 1]`, and the
bands are pairwise separated in ascending order. -/
def wfZones : List PauseZone → Prop
  | [] => True
  | z :: rest =>
    z.pauseAmount = 3/200 ∧ 0 ≤ zonePauseStart z ∧ zonePauseEnd z ≤ 1 ∧
      (∀ z' ∈ rest, zonePauseEnd z ≤ zonePauseStart z') ∧ wfZones rest

lemma wf_PAUSE_ZONES : wfZones PAUSE_ZONES := by
  norm_num [wfZones, PAUSE_ZONES, zonePauseStart, zonePauseEnd,
    zoneProgressCenter]

/-- The loop's result never exceeds `min 1 (adjusted - acc)`. -/
lemma pauseLoop_le (a : ℚ) :
    ∀ (zs : List PauseZone) (acc : ℚ), wfZones zs →
      pauseLoop a zs acc ≤ min 1 (a - acc) := by
  intro zs
  induction zs with
  | nil => intro acc _; simp [pauseLoop]
  | cons z rest ih =>
    intro acc hwf
    obtain ⟨hp, hps, hpe, _hsep, hrest⟩ := hwf
    have hcps : zonePauseStart z = zoneProgressCenter z - 1/100 := rfl
    rw [pauseLoop]
    split_ifs with hband hpast
    · rw [bandOut_eq_bandShape z hp]
      have h1 := bandShape_le_x (zoneProgressCenter z) (a - acc)
        (by rw [← hcps]; exact hband.1)
      have h2 := bandShape_le (zoneProgressCenter z) (a - acc)
        (by have := hband.2; simp only [zonePauseEnd, hp] at this; linarith)
      refine le_min ?_ h1
      have : zoneProgressCenter z + 1/100 ≤ 1 := by
        simp only [zonePauseEnd, hp] at hpe; linarith
      linarith
    · refine (ih (acc + z.pauseAmount) hrest).trans ?_
      have : (0:ℚ) < z.pauseAmount := by rw [hp]; norm_num
      exact min_le_min le_rfl (by linarith)
    · exact (ih acc hrest).trans le_rfl

/-- The loop's result is nonnegative whenever the corrected progress is. -/
lemma pauseLoop_nonneg (a : ℚ) :
    ∀ (zs : List PauseZone) (acc : ℚ), wfZones zs → 0 ≤ a - acc →
      0 ≤ pauseLoop a zs acc := by
  intro zs
  induction zs with
  | nil => intro acc _ h; rw [pauseLoop]; exact le_min (by norm_num) h
  | cons z rest ih =>
    intro acc hwf ha
    obtain ⟨hp, hps, _hpe, _hsep, hrest⟩ := hwf
    rw [pauseLoop]
    split_ifs with hband hpast
    · rw [bandOut_eq_bandShape z hp]
      have h1 := bandShape_ge (zoneProgressCenter z) (a - acc) hband.1
      have : zonePauseStart z = zoneProgressCenter z - 1/100 := rfl
      rw [this] at hps
      linarith
    · refine ih (acc + z.pauseAmount) hrest ?_
      have hpe' : zonePauseEnd z = zoneProgressCenter z + 3/200 + 1/100 := by
        simp only [zonePauseEnd, hp]
      have : zonePauseStart z = zoneProgressCenter z - 1/100 := rfl
      rw [this] at hps
      rw [hp]
      rw [hpe'] at hpast
      linarith
    · exact ih acc hrest ha

/-- If every zone's band starts at or above `b` and the corrected
progress is at least `b`, the loop's result is at least `min 1 b`. -/
lemma pauseLoop_ge_bound (a b : ℚ) :
    ∀ (zs : List PauseZone) (acc : ℚ), wfZones zs →
      (∀ z' ∈ zs, b ≤ zonePauseStart z') → b ≤ a - acc →
      min 1 b ≤ pauseLoop a zs acc := by
  intro zs
  induction zs with
  | nil =>
    intro acc _ _ hb
    simp only [pauseLoop]
    exact min_le_min le_rfl hb
  | cons z rest ih =>
    intro acc hwf hball hb
    obtain ⟨hp, _hps, _hpe, _hsep, hrest⟩ := hwf
    have hbz : b ≤ zonePauseStart z := hball z (List.mem_cons_self z rest)
    have hbrest : ∀ z' ∈ rest, b ≤ zonePauseStart z' := fun z' h =>
      hball z' (List.mem_cons_of_mem z h)
    rw [pauseLoop]
    split_ifs with hband hpast
    · rw [bandOut_eq_bandShape z hp]
      have h1 := bandShape_ge (zoneProgressCenter z) (a - acc) hband.1
      have : zonePauseStart z = zoneProgressCenter z - 1/100 := rfl
      rw [this] at hbz
      exact (min_le_right 1 b).trans (by linarith)
    · refine ih (acc + z.pauseAmount) hrest hbrest ?_
      have hpe' : zonePauseEnd z = zoneProgressCenter z + 3/200 + 1/100 := by
        simp only [zonePauseEnd, hp]
      have hcps : zonePauseStart z = zoneProgressCenter z - 1/100 := rfl
      rw [hcps] at hbz
      rw [hpe'] at hpast
      rw [hp]
      linarith
    · exact ih acc hrest hbrest hb

/-- The pause loop is monotone in the adjusted progress. -/
lemma pauseLoop_mono (a₁ a₂ : ℚ) (hab : a₁ ≤ a₂) :
    ∀ (zs : List PauseZone) (acc : ℚ), wfZones zs →
      pauseLoop a₁ zs acc ≤ pauseLoop a₂ zs acc := by
  intro zs
  induction zs with
  | nil =>
    intro acc _
    simp only [pauseLoop]
    exact min_le_min le_rfl (by linarith)
  | cons z rest ih =>
    intro acc hwf
    obtain ⟨hp, hps0, hpe1, hsep, hrest⟩ := hwf
    have hcps : zonePauseStart z = zoneProgressCenter z - 1/100 := rfl
    have hpe' : zonePauseEnd z = zoneProgressCenter z + 3/200 + 1/100 := by
      simp only [zonePauseEnd, hp]
    -- A lower bound for the loop on the remaining zones once zone `z`
    -- has been passed: the band's maximal output `center + 1/100`.
    have hrest_ge : a₂ - acc > zonePauseEnd z →
        zoneProgressCenter z + 1/100 ≤
          pauseLoop a₂ rest (acc + z.pauseAmount) := by
      intro h₂p
      have hge := pauseLoop_ge_bound a₂ (zoneProgressCenter z + 1/100) rest
        (acc + z.pauseAmount) hrest
        (fun z' hz' => by
          have := hsep z' hz'
          rw [hpe'] at this; linarith)
        (by rw [hpe'] at h₂p; rw [hp]; linarith)
      have hmin : min 1 (zoneProgressCenter z + 1/100)
          = zoneProgressCenter z + 1/100 := by
        rw [hpe'] at hpe1
        exact min_eq_right (by linarith)
      rw [hmin] at hge
      exact hge
    rw [pauseLoop, pauseLoop]
    by_cases h₁ : zonePauseStart z ≤ a₁ - acc ∧ a₁ - acc ≤ zonePauseEnd z
    · by_cases h₂ : zonePauseStart z ≤ a₂ - acc ∧ a₂ - acc ≤ zonePauseEnd z
      · -- both inside the band
        rw [if_pos h₁, if_pos h₂, bandOut_eq_bandShape z hp,
          bandOut_eq_bandShape z hp]
        exact bandShape_mono _ _ _ (by linarith)
      · -- a₁ in band, a₂ past the band
        have h₂p : a₂ - acc > zonePauseEnd z := by
          rcases not_and_or.mp h₂ with h | h
          · exact absurd (by linarith [h₁.1] : zonePauseStart z ≤ a₂ - acc) h
          · push_neg at h; exact h
        rw [if_pos h₁, if_neg h₂, if_pos h₂p, bandOut_eq_bandShape z hp]
        have hub := bandShape_le (zoneProgressCenter z) (a₁ - acc)
          (by have := h₁.2; rw [hpe'] at this; linarith)
        linarith [hrest_ge h₂p]
    · by_cases h₁p : a₁ - acc > zonePauseEnd z
      · -- a₁ past the band, hence so is a₂
        have h₂p : a₂ - acc > zonePauseEnd z := by linarith
        have h₂ : ¬(zonePauseStart z ≤ a₂ - acc ∧ a₂ - acc ≤ zonePauseEnd z) :=
          fun h => absurd h₂p (not_lt.mpr h.2)
        rw [if_neg h₁, if_neg h₂, if_pos h₁p, if_pos h₂p]
        exact ih (acc + z.pauseAmount) hrest
      · -- a₁ below the band
        have h1x : a₁ - acc < zonePauseStart z := by
          rcases not_and_or.mp h₁ with h | h
          · push_neg at h; exact h
          · exfalso; exact h₁p (by push_neg at h; linarith)
        have h1le := pauseLoop_le a₁ rest acc hrest
        have h1small := (min_le_right (1:ℚ) (a₁ - acc)).trans' h1le
        by_cases h₂ : zonePauseStart z ≤ a₂ - acc ∧ a₂ - acc ≤ zonePauseEnd z
        · -- a₂ in the band
          rw [if_neg h₁, if_pos h₂, if_neg h₁p, bandOut_eq_bandShape z hp]
          have hge := bandShape_ge (zoneProgressCenter z) (a₂ - acc)
            (by rw [← hcps]; exact h₂.1)
          rw [hcps] at h1x
          linarith
        · by_cases h₂p : a₂ - acc > zonePauseEnd z
          · -- a₂ past the band
            rw [if_neg h₁, if_neg h₂, if_neg h₁p, if_pos h₂p]
            have := hrest_ge h₂p
            rw [hcps] at h1x
            linarith
          · -- a₂ below the band as well
            rw [if_neg h₁, if_neg h₂, if_neg h₁p, if_neg h₂p]
            exact ih acc hrest

lemma totalPauseAmount_PAUSE_ZONES : totalPauseAmount PAUSE_ZONES = 21/200 := by
  norm_num [totalPauseAmount, PAUSE_ZONES]

/-- `applyScrollPauses` is monotone (for arbitrary rational inputs). -/
lemma applyScrollPauses_mono {r₁ r₂ : ℚ} (h : r₁ ≤ r₂) :
    applyScrollPauses r₁ ≤ applyScrollPauses r₂ := by
  simp only [applyScrollPauses]
  refine pauseLoop_mono _ _ ?_ PAUSE_ZONES 0 wf_PAUSE_ZONES
  rw [totalPauseAmount_PAUSE_ZONES]
  nlinarith

/-- `applyScrollPauses` never exceeds `1`. -/
lemma applyScrollPauses_le_one (r : ℚ) : applyScrollPauses r ≤ 1 := by
  simp only [applyScrollPauses]
  exact (pauseLoop_le _ PAUSE_ZONES 0 wf_PAUSE_ZONES).trans (min_le_left _ _)

/-- `applyScrollPauses` is nonnegative on nonnegative inputs. -/
lemma applyScrollPauses_nonneg {r : ℚ} (h : 0 ≤ r) :
    0 ≤ applyScrollPauses r := by
  simp only [applyScrollPauses]
  refine pauseLoop_nonneg _ PAUSE_ZONES 0 wf_PAUSE_ZONES ?_
  rw [totalPauseAmount_PAUSE_ZONES]
  nlinarith

/-- The section-breakpoint chain of `handleScroll` as an ordered table:
`z < 500 → "portal"`, `z < 1000 → "eventX"`, …, with the trailing `else`
giving `"parody"`.  `resolveSection` below walks the table in order,
first `z < upperBound` wins — exactly the source's if/else chain. -/
def sectionTable : List (ℚ × String) :=
  [(500, "portal"), (1000, "eventX"), (1500, "vortex"), (2000, "battle"),
   (2500, "curtain"), (3000, "spotlight"), (3500, "paintTunnel"),
   (4000, "mural"), (4500, "dollyZoom"), (5000, "unveil"),
   (5500, "falling"), (6000, "beatTheStreet"), (6500, "glitch")]

/-- First `z < upperBound` wins; the empty tail is the final `else`. -/
def resolveSection : List (ℚ × String) → ℚ → String
  | [], _ => "parody"
  | (bound, name) :: rest, z =>
    if z < bound then name else resolveSection rest z

/-- Position of the resolved entry in the chain. -/
def resolveSectionIndex : List (ℚ × String) → ℚ → ℕ
  | [], _ => 0
  | (bound, _) :: rest, z =>
    if z < bound then 0 else resolveSectionIndex rest z + 1

/-- `scrollState.currentSection` as assigned by `handleScroll`. -/
def currentSectionOf (z : ℚ) : String := resolveSection sectionTable z

/-- The breakpoint-order index of `currentSectionOf z` (0 = portal …
13 = parody). -/
def sectionIndexOf (z : ℚ) : ℕ := resolveSectionIndex sectionTable z

/-- The 14 configured section names, in ascending breakpoint order. -/
def sectionNames : List String :=
  ["portal", "eventX", "vortex", "battle", "curtain", "spotlight",
   "paintTunnel", "mural", "dollyZoom", "unveil", "falling",
   "beatTheStreet", "glitch", "parody"]

lemma resolveSection_eq_names :
    ∀ (tbl : List (ℚ × String)) (z : ℚ),
      resolveSection tbl z
        = (tbl.map Prod.snd ++ ["parody"]).getD (resolveSectionIndex tbl z) "" := by
  intro tbl
  induction tbl with
  | nil => intro z; rfl
  | cons p rest ih =>
    intro z
    obtain ⟨bound, name⟩ := p
    rw [resolveSection, resolveSectionIndex]
    by_cases h : z < bound
    · rw [if_pos h, if_pos h]; rfl
    · rw [if_neg h, if_neg h]
      simpa using ih z

lemma currentSectionOf_eq_names (z : ℚ) :
    currentSectionOf z = sectionNames.getD (sectionIndexOf z) "" := by
  have h := resolveSection_eq_names sectionTable z
  simpa [sectionTable, sectionNames] using h

lemma resolveSectionIndex_mono :
    ∀ (tbl : List (ℚ × String)) {z₁ z₂ : ℚ}, z₁ ≤ z₂ →
      resolveSectionIndex tbl z₁ ≤ resolveSectionIndex tbl z₂ := by
  intro tbl
  induction tbl with
  | nil => intro z₁ z₂ _; exact le_rfl
  | cons p rest ih =>
    intro z₁ z₂ h
    obtain ⟨bound, name⟩ := p
    rw [resolveSectionIndex, resolveSectionIndex]
    by_cases h₁ : z₁ < bound
    · rw [if_pos h₁]; exact Nat.zero_le _
    · have h₂ : ¬ z₂ < bound := fun hlt => h₁ (lt_of_le_of_lt h hlt)
      rw [if_neg h₁, if_neg h₂]
      exact Nat.succ_le_succ (ih h)

lemma sectionIndexOf_mono {z₁ z₂ : ℚ} (h : z₁ ≤ z₂) :
    sectionIndexOf z₁ ≤ sectionIndexOf z₂ :=
  resolveSectionIndex_mono sectionTable h

/-- `easeInOutCubic`, with `Math.pow(x, 3)` as exact cubing. -/
def easeInOutCubic (t : ℚ) : ℚ :=
  if t < 1/2 then 4 * t * t * t else 1 - (-2 * t + 2)^3 / 2

/-- The dolly-zoom FOV target of `handleScroll` (window Z 4100–4400,
return ramp 4400–4700, baseline 50). -/
def targetFovOf (z : ℚ) : ℚ :=
  if 4100 ≤ z ∧ z ≤ 4400 then
    50 + 30 * easeInOutCubic ((z - 4100) / 300)
  else if 4400 < z ∧ z < 4700 then
    80 - 30 * easeInOutCubic ((z - 4400) / 300)
  else 50

/-- The falling Y target of `handleScroll` (window Z 5100–5400; note the
`z > 5400` branch keeps the target at `-500`). -/
def targetYOf (z : ℚ) : ℚ :=
  if 5100 ≤ z ∧ z ≤ 5400 then
    -500 * easeInOutCubic ((z - 5100) / 300)
  else if 5400 < z then -500
  else 0

/-- The exact binary64 value of JavaScript's `Math.PI`. -/
def mathPI : ℚ := 884279719003555 / 281474976710656

/-- The glitch-spin roll target of `handleScroll` (window Z 6300–6450,
reset ramp 6450–6600, baseline 0). -/
def targetRotationZOf (z : ℚ) : ℚ :=
  if 6300 ≤ z ∧ z ≤ 6450 then
    easeInOutCubic ((z - 6300) / 150) * mathPI * 2
  else if 6450 < z ∧ z < 6600 then
    mathPI * 2 * (1 - easeInOutCubic ((z - 6450) / 150))
  else 0

/-- The shared `scrollState` object. -/
structure ScrollState where
  progress : ℚ
  cameraZ : ℚ
  currentSection : String
  velocity : ℚ
deriving DecidableEq

/-- The module-level mutable bindings around `scrollState`:
`lastScrollTime` and `lastProgress`. -/
structure ScrollGlobals where
  scroll : ScrollState
  lastScrollTime : ℚ
  lastProgress : ℚ
deriving DecidableEq

/-- The four target refs owned by `CameraController`. -/
structure CameraTargets where
  targetZ : ℚ
  targetY : ℚ
  targetFov : ℚ
  targetRotationZ : ℚ
deriving DecidableEq

/-- What `handleScroll` reads from the container element:
`getBoundingClientRect().top` and `offsetHeight`. -/
structure ContainerInfo where
  rectTop : ℚ
  offsetHeight : ℚ
deriving DecidableEq

/-- The initial values of the module-level state. -/
def initialGlobals : ScrollGlobals :=
  { scroll := { progress := 0, cameraZ := 0, currentSection := "portal",
                velocity := 0 },
    lastScrollTime := 0, lastProgress := 0 }

/-- The initial values of the camera-target refs. -/
def initialTargets : CameraTargets :=
  { targetZ := 0, targetY := 0, targetFov := 50, targetRotationZ := 0 }

/-- One invocation of the `handleScroll` closure of `CameraController`,
as a function of the container reference, the wall clock (`now`, ms),
the viewport height, and the previous module-level state and targets.
Division is exact rational division here; the companion `JSVal` model
below captures the IEEE-754 behaviour of the same code when
`scrollableDistance` is zero. -/
def handleScroll (container : Option ContainerInfo) (now viewportHeight : ℚ)
    (g : ScrollGlobals) (t : CameraTargets) : ScrollGlobals × CameraTargets :=
  match container with
  | none => (g, t)
  | some c =>
    let containerHeight := c.offsetHeight
    let scrollableDistance := containerHeight - viewportHeight
    let scrolled := -c.rectTop
    let rawProgress := max 0 (min 1 (scrolled / scrollableDistance))
    let progress := applyScrollPauses rawProgress
    let deltaTime := (now - g.lastScrollTime) / 1000
    let velocity := if deltaTime > 0 then (progress - g.lastProgress) / deltaTime
      else 0
    let cameraZ := progress * 7000
    ({ scroll := { progress := progress, cameraZ := cameraZ,
                   currentSection := currentSectionOf cameraZ,
                   velocity := velocity },
       lastScrollTime := now, lastProgress := progress },
     { targetZ := cameraZ, targetY := targetYOf cameraZ,
       targetFov := targetFovOf cameraZ,
       targetRotationZ := targetRotationZOf cameraZ })

/-! ### A model of JavaScript numbers with special values

`handleScroll` divides by `scrollableDistance` with no guard.  To settle
what the code does when that distance is zero we re-run the same
dataflow over a four-way model of binary64 values: `nan`, the two
infinities, and finite values (idealised as exact rationals).  The
operation tables follow IEEE 754 / ECMA-262: any operation on `nan`
returns `nan`, `0/0` is `nan`, `x/0` is signed infinity for `x ≠ 0`,
comparisons with `nan` are false, and `Math.min`/`Math.max` return
`NaN` when any argument is `NaN`. -/

inductive JSVal where
  | nan : JSVal
  | posInf : JSVal
  | negInf : JSVal
  | fin : ℚ → JSVal
deriving DecidableEq

namespace JSVal

def neg : JSVal → JSVal
  | nan => nan
  | posInf => negInf
  | negInf => posInf
  | fin q => fin (-q)

def add : JSVal → JSVal → JSVal
  | nan, _ => nan
  | _, nan => nan
  | posInf, negInf => nan
  | negInf, posInf => nan
  | posInf, _ => posInf
  | _, posInf => posInf
  | negInf, _ => negInf
  | _, negInf => negInf
  | fin a, fin b => fin (a + b)

def sub (a b : JSVal) : JSVal := add a (neg b)

def mul : JSVal → JSVal → JSVal
  | nan, _ => nan
  | _, nan => nan
  | posInf, posInf => posInf
  | posInf, negInf => negInf
  | negInf, posInf => negInf
  | negInf, negInf => posInf
  | posInf, fin q => if q = 0 then nan else if 0 < q then posInf else negInf
  | fin q, posInf => if q = 0 then nan else if 0 < q then posInf else negInf
  | negInf, fin q => if q = 0 then nan else if 0 < q then negInf else posInf
  | fin q, negInf => if q = 0 then nan else if 0 < q then negInf else posInf
  | fin a, fin b => fin (a * b)

def div : JSVal → JSVal → JSVal
  | nan, _ => nan
  | _, nan => nan
  | posInf, posInf => nan
  | posInf, negInf => nan
  | negInf, posInf => nan
  | negInf, negInf => nan
  | posInf, fin q => if 0 ≤ q then posInf else negInf
  | negInf, fin q => if 0 ≤ q then negInf else posInf
  | fin _, posInf => fin 0
  | fin _, negInf => fin 0
  | fin a, fin b =>
    if b = 0 then (if a = 0 then nan else if 0 < a then posInf else negInf)
    else fin (a / b)

def lt : JSVal → JSVal → Bool
  | nan, _ => false
  | _, nan => false
  | posInf, _ => false
  | negInf, negInf => false
  | negInf, _ => true
  | fin _, posInf => true
  | fin _, negInf => false
  | fin a, fin b => decide (a < b)

def le : JSVal → JSVal → Bool
  | nan, _ => false
  | _, nan => false
  | negInf, _ => true
  | _, posInf => true
  | posInf, _ => false
  | fin _, negInf => false
  | fin a, fin b => decide (a ≤ b)

/-- `Math.min`: `NaN` if either argument is `NaN`. -/
def jmin (a b : JSVal) : JSVal :=
  if a = nan ∨ b = nan then nan else if le a b then a else b

/-- `Math.max`: `NaN` if either argument is `NaN`. -/
def jmax (a b : JSVal) : JSVal :=
  if a = nan ∨ b = nan then nan else if le a b then b else a

end JSVal

/-- `Math.max(0, Math.min(1, scrolled / scrollableDistance))` exactly as
written in `handleScroll`, over the binary64 model. -/
def rawProgressJS (scrolled scrollableDistance : JSVal) : JSVal :=
  JSVal.jmax (.fin 0) (JSVal.jmin (.fin 1) (JSVal.div scrolled scrollableDistance))

/-- The pause-zone loop over the binary64 model. -/
def pauseLoopJS (adjusted : JSVal) : List PauseZone → JSVal → JSVal
  | [], acc => JSVal.jmin (.fin 1) (JSVal.sub adjusted acc)
  | z :: rest, acc =>
    let x := JSVal.sub adjusted acc
    let c := JSVal.div (.fin z.center) (.fin 7000)
    let ps := JSVal.sub c (.fin (1/100))
    let pe := JSVal.add (JSVal.add c (.fin z.pauseAmount)) (.fin (1/100))
    if JSVal.le ps x && JSVal.le x pe then
      let d := JSVal.sub x ps
      let w := JSVal.sub pe ps
      if JSVal.lt d (JSVal.mul w (.fin (3/10))) then
        JSVal.add ps (JSVal.mul d (.fin (3/10)))
      else if JSVal.lt (JSVal.mul w (.fin (7/10))) d then
        JSVal.add c
          (JSVal.mul
            (JSVal.div (JSVal.sub d (JSVal.mul w (.fin (7/10))))
              (JSVal.mul w (.fin (3/10))))
            (.fin (1/100)))
      else c
    else
      pauseLoopJS adjusted rest
        (if JSVal.lt pe x then JSVal.add acc (.fin z.pauseAmount) else acc)

/-- `applyScrollPauses` over the binary64 model. -/
def applyScrollPausesJS (rawProgress : JSVal) : JSVal :=
  pauseLoopJS (JSVal.mul rawProgress (.fin (1 + totalPauseAmount PAUSE_ZONES)))
    PAUSE_ZONES (.fin 0)

/-- The `progress`/`cameraZ`/`velocity` stores of one `handleScroll`
invocation over the binary64 model (`rectTop`, `offsetHeight`,
`viewportHeight` and the previous timing state as model values). -/
def handleScrollStoresJS (rectTop offsetHeight viewportHeight now
    lastScrollTime lastProgress : JSVal) : JSVal × JSVal × JSVal :=
  let scrollableDistance := JSVal.sub offsetHeight viewportHeight
  let scrolled := JSVal.neg rectTop
  let rawProgress := rawProgressJS scrolled scrollableDistance
  let progress := applyScrollPausesJS rawProgress
  let deltaTime := JSVal.div (JSVal.sub now lastScrollTime) (.fin 1000)
  let velocity := if JSVal.lt (.fin 0) deltaTime then
      JSVal.div (JSVal.sub progress lastProgress) deltaTime
    else .fin 0
  let cameraZ := JSVal.mul progress (.fin 7000)
  (progress, cameraZ, velocity)

/-! ### Smoothing primitives and the `ParticleSystem` frame update

These mirror `smoothDamp`, `easeOutQuart` and the `useFrame` body of
`ParticleSystem`.  They live over `ℝ` because `smoothDamp` uses
`Math.exp`. -/

/-- `smoothDamp(current, target, smoothing, delta)`:
frame-rate-independent exponential damping. -/
noncomputable def smoothDamp (current target smoothing delta : ℝ) : ℝ :=
  let factor := 1 - Real.exp (-smoothing * delta * 60)
  current + (target - current) * factor

/-- `easeOutQuart(t) = 1 - (1 - t)^4`. -/
def easeOutQuart (t : ℝ) : ℝ := 1 - (1 - t)^4

/-- One particle of `ParticleSystem`: position, velocity, scale. -/
structure Particle where
  px : ℝ
  py : ℝ
  pz : ℝ
  vx : ℝ
  vy : ℝ
  vz : ℝ
  scale : ℝ

/-- One row of the instance-matrix buffer, as set from the `dummy`
object: a translation plus a uniform scale. -/
structure InstanceMatrix where
  mx : ℝ
  my : ℝ
  mz : ℝ
  mscale : ℝ

/-- The per-particle body of the `particles.forEach` loop: integrate the
position by `velocity * delta`, wrap `x`/`y` at `±spread/2`, and write
the dummy's matrix at this instance slot. -/
noncomputable def particleUpdateStep (spread size delta : ℝ) (p : Particle) :
    Particle × InstanceMatrix :=
  let px₁ := p.px + p.vx * delta
  let py₁ := p.py + p.vy * delta
  let pz₁ := p.pz + p.vz * delta
  let px₂ := if px₁ > spread / 2 then -(spread / 2) else px₁
  let px₃ := if px₂ < -(spread / 2) then spread / 2 else px₂
  let py₂ := if py₁ > spread / 2 then -(spread / 2) else py₁
  let py₃ := if py₂ < -(spread / 2) then spread / 2 else py₂
  ({ px := px₃, py := py₃, pz := pz₁, vx := p.vx, vy := p.vy, vz := p.vz,
     scale := p.scale },
   { mx := px₃, my := py₃, mz := pz₁, mscale := p.scale * size })

/-- The target opacity computed each frame by `ParticleSystem`:
distance-to-center falloff eased by `easeOutQuart`. -/
noncomputable def targetOpacityOf (zStart zEnd baseOpacity cameraZ : ℝ) : ℝ :=
  let centerZ := (zStart + zEnd) / 2
  let range := (zEnd - zStart) / 2 + 400
  let distance := |cameraZ - centerZ|
  if distance < range then baseOpacity * easeOutQuart (1 - distance / range)
  else 0

/-- Result of one `ParticleSystem` frame: the damped opacity ref, the
material opacity, the mesh's `visible` flag, the particle array, the
instance-matrix buffer, and whether `instanceMatrix.needsUpdate` was
set. -/
structure ParticleFrameResult where
  currentOpacity : ℝ
  materialOpacity : ℝ
  visible : Bool
  particles : List Particle
  matrices : List InstanceMatrix
  instanceNeedsUpdate : Bool

/-- One `useFrame` invocation of `ParticleSystem`: damp the opacity,
write it to the material, set `visible = opacity > 0.01`, and run the
per-particle loop only when visible. -/
noncomputable def particleSystemFrame (zStart zEnd spread size baseOpacity
    cameraZ delta currentOpacity : ℝ) (particles : List Particle)
    (matrices : List InstanceMatrix) : ParticleFrameResult :=
  let targetOpacity := targetOpacityOf zStart zEnd baseOpacity cameraZ
  let newOpacity := smoothDamp currentOpacity targetOpacity (1/10) delta
  if newOpacity > 1/100 then
    let updated := particles.map (particleUpdateStep spread size delta)
    { currentOpacity := newOpacity, materialOpacity := newOpacity,
      visible := true, particles := updated.map Prod.fst,
      matrices := updated.map Prod.snd, instanceNeedsUpdate := true }
  else
    { currentOpacity := newOpacity, materialOpacity := newOpacity,
      visible := false, particles := particles, matrices := matrices,
      instanceNeedsUpdate := false }

/-! ### Claim theorems -/

/-- Claim C3: `applyScrollPauses` is monotonically non-decreasing: for
raw progress values `r₁ ≤ r₂` in `[0, 1]` the adjusted progress never
jumps backward, including across a pause zone's band. -/
theorem c3_applyScrollPauses_monotone (r₁ r₂ : ℚ) (_h₀ : 0 ≤ r₁)
    (h : r₁ ≤ r₂) (_h₁ : r₂ ≤ 1) :
    applyScrollPauses r₁ ≤ applyScrollPauses r₂ :=
  applyScrollPauses_mono h

/-- Witness for C3 at `r₁ = 1/4`, `r₂ = 1/2`. -/
theorem c3_witness :
    0 ≤ (1/4 : ℚ) ∧ (1/4 : ℚ) ≤ 1/2 ∧ (1/2 : ℚ) ≤ 1 ∧
      applyScrollPauses (1/4) ≤ applyScrollPauses (1/2) :=
  ⟨by norm_num, by norm_num, by norm_num,
   c3_applyScrollPauses_monotone (1/4) (1/2) (by norm_num) (by norm_num)
     (by norm_num)⟩

/-- Counterexample for C7: the raw progress whose adjusted progress is
exactly the first zone's center `750/7000` falls in the *entering*
sub-band (`distFromStart = 0.01 < 0.3 · zoneWidth = 0.0105`), so
`applyScrollPauses` returns `pauseStart + 0.01 · 0.3 = 750/7000 - 7/1000`,
not `750/7000`. -/
theorem c7_center_counterexample :
    applyScrollPauses (150/1547) = 750/7000 - 7/1000 ∧
      (750/7000 - 7/1000 : ℚ) ≠ 750/7000 := by
  constructor
  · norm_num [applyScrollPauses, pauseLoop, bandOut, zonePauseStart,
      zonePauseEnd, zoneProgressCenter, PAUSE_ZONES, totalPauseAmount]
  · norm_num

/-- Claim C7 (amended): the exact zone center maps to
`zoneProgressCenter - 7/1000` via the entering easing; the value
`zoneProgressCenter = 750/7000` is returned exactly on the middle
holding sub-band, e.g. at raw progress `321/3094` (adjusted progress
`750/7000 + 3/400`). -/
theorem c7_holding_band_is_center :
    applyScrollPauses (321/3094) = 750/7000 ∧
      applyScrollPauses (150/1547) = 750/7000 - 7/1000 := by
  constructor <;>
    norm_num [applyScrollPauses, pauseLoop, bandOut, zonePauseStart,
      zonePauseEnd, zoneProgressCenter, PAUSE_ZONES, totalPauseAmount]

/-- Claim C10: when the shared container reference is null,
`handleScroll` returns immediately: the whole scroll state, the timing
variables, and all four camera targets are unchanged. -/
theorem c10_null_container_no_update (now viewportHeight : ℚ)
    (g : ScrollGlobals) (t : CameraTargets) :
    handleScroll none now viewportHeight g t = (g, t) := rfl

/-- Claim C9 (amended): when two invocations share a timestamp
(`Δt ≤ 0`) the division is guarded and `velocity` is set to `0` (not
left at its previous value); for `Δt > 0` it is
`(progress - lastProgress) / Δt` with `Δt` in seconds. -/
theorem c9_velocity_guard (c : ContainerInfo) (now viewportHeight : ℚ)
    (g : ScrollGlobals) (t : CameraTargets) :
    (now - g.lastScrollTime ≤ 0 →
      (handleScroll (some c) now viewportHeight g t).1.scroll.velocity = 0) ∧
    (0 < now - g.lastScrollTime →
      (handleScroll (some c) now viewportHeight g t).1.scroll.velocity =
        ((handleScroll (some c) now viewportHeight g t).1.scroll.progress
            - g.lastProgress) / ((now - g.lastScrollTime) / 1000)) := by
  constructor
  · intro h
    have hdt : ¬ ((now - g.lastScrollTime) / 1000 > 0) := by
      intro hpos
      have : (0:ℚ) < now - g.lastScrollTime := by
        have h1000 : (0:ℚ) < 1000 := by norm_num
        calc (0:ℚ) = 0 * 1000 := by ring
        _ < (now - g.lastScrollTime) / 1000 * 1000 := by
            exact (mul_lt_mul_right h1000).mpr hpos
        _ = now - g.lastScrollTime := by field_simp
      linarith
    dsimp only [handleScroll]
    rw [if_neg hdt]
  · intro h
    have hdt : (now - g.lastScrollTime) / 1000 > 0 := div_pos h (by norm_num)
    dsimp only [handleScroll]
    rw [if_pos hdt]

/-- Witness for C9's `Δt > 0` branch at `now = 5`, initial state. -/
theorem c9_witness :
    0 < (5:ℚ) - initialGlobals.lastScrollTime ∧
    (handleScroll (some ⟨0, 900⟩) 5 800 initialGlobals
        initialTargets).1.scroll.velocity =
      ((handleScroll (some ⟨0, 900⟩) 5 800 initialGlobals
          initialTargets).1.scroll.progress - initialGlobals.lastProgress)
        / ((5 - initialGlobals.lastScrollTime) / 1000) :=
  ⟨by norm_num [initialGlobals],
   (c9_velocity_guard ⟨0, 900⟩ 5 800 initialGlobals initialTargets).2
     (by norm_num [initialGlobals])⟩

/-- Counterexample for C9 as stated: with previous `velocity = 5` and
`Δt = 0`, the handler overwrites `velocity` with `0` instead of leaving
the previous value `5`. -/
theorem c9_counterexample :
    (handleScroll (some ⟨0, 900⟩) 0 800
        ⟨⟨0, 0, "portal", 5⟩, 0, 0⟩ initialTargets).1.scroll.velocity = 0 ∧
      (0 : ℚ) ≠ 5 := by
  constructor
  · dsimp only [handleScroll]
    rw [if_neg (by norm_num)]
  · norm_num

/-- Claim C6 (amended): after an invocation with the container present
and *nonzero scrollable distance*, `progress` lies in `[0, 1]` and
`cameraZ = progress * 7000` exactly. -/
theorem c6_progress_invariant (c : ContainerInfo) (now viewportHeight : ℚ)
    (g : ScrollGlobals) (t : CameraTargets)
    (_hsd : c.offsetHeight - viewportHeight ≠ 0) :
    0 ≤ (handleScroll (some c) now viewportHeight g t).1.scroll.progress ∧
    (handleScroll (some c) now viewportHeight g t).1.scroll.progress ≤ 1 ∧
    (handleScroll (some c) now viewportHeight g t).1.scroll.cameraZ =
      (handleScroll (some c) now viewportHeight g t).1.scroll.progress
        * 7000 := by
  dsimp only [handleScroll]
  exact ⟨applyScrollPauses_nonneg (le_max_left 0 _),
    applyScrollPauses_le_one _, rfl⟩

/-- Witness for C6 at a container of height 1800 with viewport 800. -/
theorem c6_witness :
    ((⟨-300, 1800⟩ : ContainerInfo).offsetHeight - 800 ≠ 0) ∧
    (0 ≤ (handleScroll (some ⟨-300, 1800⟩) 5 800 initialGlobals
        initialTargets).1.scroll.progress ∧
     (handleScroll (some ⟨-300, 1800⟩) 5 800 initialGlobals
        initialTargets).1.scroll.progress ≤ 1 ∧
     (handleScroll (some ⟨-300, 1800⟩) 5 800 initialGlobals
        initialTargets).1.scroll.cameraZ =
       (handleScroll (some ⟨-300, 1800⟩) 5 800 initialGlobals
          initialTargets).1.scroll.progress * 7000) :=
  ⟨by norm_num,
   c6_progress_invariant ⟨-300, 1800⟩ 5 800 initialGlobals initialTargets
     (by norm_num)⟩

/-- Counterexample for C6 as stated: with the container present but of
height equal to the viewport (zero scrollable distance) and scroll
offset zero, the stored `progress` is `NaN` (from `0/0`), which is not
a value in `[0, 1]`. -/
theorem c6_nan_counterexample :
    (handleScrollStoresJS (.fin 0) (.fin 800) (.fin 800) (.fin 100)
      (.fin 0) (.fin 0)).1 = JSVal.nan := by
  norm_num [handleScrollStoresJS, applyScrollPausesJS, pauseLoopJS,
    rawProgressJS, PAUSE_ZONES, totalPauseAmount, JSVal.sub, JSVal.neg,
    JSVal.add, JSVal.mul, JSVal.div, JSVal.le, JSVal.lt, JSVal.jmin,
    JSVal.jmax]

/-- Claim C4 (amended): outside their windows the FOV target reverts to
50 and the roll target to 0; the Y target reverts to 0 only *below* the
falling window — for every `cameraZ > 5400` it stays at `-500`. -/
theorem c4_baseline_targets :
    (∀ z : ℚ, z < 4100 ∨ 4700 ≤ z → targetFovOf z = 50) ∧
    (∀ z : ℚ, z < 6300 ∨ 6600 ≤ z → targetRotationZOf z = 0) ∧
    (∀ z : ℚ, z < 5100 → targetYOf z = 0) ∧
    (∀ z : ℚ, 5400 < z → targetYOf z = -500) := by
  refine ⟨?_, ?_, ?_, ?_⟩
  · intro z h
    simp only [targetFovOf]
    split_ifs with h₁ h₂
    · exfalso; rcases h with h | h
      · linarith [h₁.1]
      · linarith [h₁.2]
    · exfalso; rcases h with h | h
      · linarith [h₂.1]
      · linarith [h₂.2]
    · rfl
  · intro z h
    simp only [targetRotationZOf]
    split_ifs with h₁ h₂
    · exfalso; rcases h with h | h
      · linarith [h₁.1]
      · linarith [h₁.2]
    · exfalso; rcases h with h | h
      · linarith [h₂.1]
      · linarith [h₂.2]
    · rfl
  · intro z h
    simp only [targetYOf]
    split_ifs with h₁ h₂
    · exfalso; linarith [h₁.1]
    · exfalso; linarith
    · rfl
  · intro z h
    simp only [targetYOf]
    split_ifs with h₁
    · exfalso; linarith [h₁.2]
    · rfl

/-- Witness for C4 (amended) at `z = 1000` and `z = 6000`. -/
theorem c4_witness :
    targetFovOf 1000 = 50 ∧ targetRotationZOf 1000 = 0 ∧
      targetYOf 1000 = 0 ∧ targetYOf 6000 = -500 :=
  ⟨c4_baseline_targets.1 1000 (Or.inl (by norm_num)),
   c4_baseline_targets.2.1 1000 (Or.inl (by norm_num)),
   c4_baseline_targets.2.2.1 1000 (by norm_num),
   c4_baseline_targets.2.2.2 6000 (by norm_num)⟩

/-- Counterexample for C4 as stated: a scroll placing the camera at
`cameraZ = 6000` — outside the dolly-zoom window [4100, 4700], the
falling window [5100, 5400] and the glitch window [6300, 6600] — leaves
the Y target at `-500`, not the baseline `0`. -/
theorem c4_counterexample :
    (handleScroll (some ⟨-6, 807⟩) 100 800 initialGlobals
        initialTargets).1.scroll.cameraZ = 6000 ∧
    (handleScroll (some ⟨-6, 807⟩) 100 800 initialGlobals
        initialTargets).2.targetY = -500 ∧
    (-500 : ℚ) ≠ 0 := by
  refine ⟨?_, ?_, by norm_num⟩ <;>
    norm_num [handleScroll, applyScrollPauses, pauseLoop, bandOut,
      zonePauseStart, zonePauseEnd, zoneProgressCenter, PAUSE_ZONES,
      totalPauseAmount, initialGlobals, targetYOf]

set_option maxHeartbeats 8000000 in
/-- Claim C2: as raw scroll progress sweeps monotonically from 0 to 1,
the breakpoint index of the resolved section is monotone, and every one
of the 14 configured sections is attained at some raw progress in
`[0, 1]` with its configured name — so a monotone sweep visits each
section exactly once, as one contiguous run, in ascending breakpoint
order, with no section skipped. -/
theorem c2_section_sweep :
    (∀ r₁ r₂ : ℚ, 0 ≤ r₁ → r₁ ≤ r₂ → r₂ ≤ 1 →
      sectionIndexOf (applyScrollPauses r₁ * 7000) ≤
        sectionIndexOf (applyScrollPauses r₂ * 7000)) ∧
    (∀ i : Fin 14, ∃ r : ℚ, 0 ≤ r ∧ r ≤ 1 ∧
      sectionIndexOf (applyScrollPauses r * 7000) = (i : ℕ) ∧
      currentSectionOf (applyScrollPauses r * 7000)
        = sectionNames.getD (i : ℕ) "") := by
  constructor
  · intro r₁ r₂ _ h _
    exact sectionIndexOf_mono
      (mul_le_mul_of_nonneg_right (applyScrollPauses_mono h) (by norm_num))
  · intro i
    fin_cases i
    · exact ⟨0, by norm_num, by norm_num, by
        norm_num [applyScrollPauses, pauseLoop, bandOut, zonePauseStart,
          zonePauseEnd, zoneProgressCenter, PAUSE_ZONES, totalPauseAmount,
          sectionIndexOf, resolveSectionIndex, sectionTable], by
        norm_num [applyScrollPauses, pauseLoop, bandOut, zonePauseStart,
          zonePauseEnd, zoneProgressCenter, PAUSE_ZONES, totalPauseAmount,
          currentSectionOf, resolveSection, sectionTable, sectionNames]⟩
    · exact ⟨13/200, by norm_num, by norm_num, by
        norm_num [applyScrollPauses, pauseLoop, bandOut, zonePauseStart,
          zonePauseEnd, zoneProgressCenter, PAUSE_ZONES, totalPauseAmount,
          sectionIndexOf, resolveSectionIndex, sectionTable], by
        norm_num [applyScrollPauses, pauseLoop, bandOut, zonePauseStart,
          zonePauseEnd, zoneProgressCenter, PAUSE_ZONES, totalPauseAmount,
          currentSectionOf, resolveSection, sectionTable, sectionNames]⟩
    · exact ⟨1/7, by norm_num, by norm_num, by
        norm_num [applyScrollPauses, pauseLoop, bandOut, zonePauseStart,
          zonePauseEnd, zoneProgressCenter, PAUSE_ZONES, totalPauseAmount,
          sectionIndexOf, resolveSectionIndex, sectionTable], by
        norm_num [applyScrollPauses, pauseLoop, bandOut, zonePauseStart,
          zonePauseEnd, zoneProgressCenter, PAUSE_ZONES, totalPauseAmount,
          currentSectionOf, resolveSection, sectionTable, sectionNames]⟩
    · exact ⟨291/1400, by norm_num, by norm_num, by
        norm_num [applyScrollPauses, pauseLoop, bandOut, zonePauseStart,
          zonePauseEnd, zoneProgressCenter, PAUSE_ZONES, totalPauseAmount,
          sectionIndexOf, resolveSectionIndex, sectionTable], by
        norm_num [applyScrollPauses, pauseLoop, bandOut, zonePauseStart,
          zonePauseEnd, zoneProgressCenter, PAUSE_ZONES, totalPauseAmount,
          currentSectionOf, resolveSection, sectionTable, sectionNames]⟩
    · exact ⟨2/7, by norm_num, by norm_num, by
        norm_num [applyScrollPauses, pauseLoop, bandOut, zonePauseStart,
          zonePauseEnd, zoneProgressCenter, PAUSE_ZONES, totalPauseAmount,
          sectionIndexOf, resolveSectionIndex, sectionTable], by
        norm_num [applyScrollPauses, pauseLoop, bandOut, zonePauseStart,
          zonePauseEnd, zoneProgressCenter, PAUSE_ZONES, totalPauseAmount,
          currentSectionOf, resolveSection, sectionTable, sectionNames]⟩
    · exact ⟨491/1400, by norm_num, by norm_num, by
        norm_num [applyScrollPauses, pauseLoop, bandOut, zonePauseStart,
          zonePauseEnd, zoneProgressCenter, PAUSE_ZONES, totalPauseAmount,
          sectionIndexOf, resolveSectionIndex, sectionTable], by
        norm_num [applyScrollPauses, pauseLoop, bandOut, zonePauseStart,
          zonePauseEnd, zoneProgressCenter, PAUSE_ZONES, totalPauseAmount,
          currentSectionOf, resolveSection, sectionTable, sectionNames]⟩
    · exact ⟨3/7, by norm_num, by norm_num, by
        norm_num [applyScrollPauses, pauseLoop, bandOut, zonePauseStart,
          zonePauseEnd, zoneProgressCenter, PAUSE_ZONES, totalPauseAmount,
          sectionIndexOf, resolveSectionIndex, sectionTable], by
        norm_num [applyScrollPauses, pauseLoop, bandOut, zonePauseStart,
          zonePauseEnd, zoneProgressCenter, PAUSE_ZONES, totalPauseAmount,
          currentSectionOf, resolveSection, sectionTable, sectionNames]⟩
    · exact ⟨691/1400, by norm_num, by norm_num, by
        norm_num [applyScrollPauses, pauseLoop, bandOut, zonePauseStart,
          zonePauseEnd, zoneProgressCenter, PAUSE_ZONES, totalPauseAmount,
          sectionIndexOf, resolveSectionIndex, sectionTable], by
        norm_num [applyScrollPauses, pauseLoop, bandOut, zonePauseStart,
          zonePauseEnd, zoneProgressCenter, PAUSE_ZONES, totalPauseAmount,
          currentSectionOf, resolveSection, sectionTable, sectionNames]⟩
    · exact ⟨4/7, by norm_num, by norm_num, by
        norm_num [applyScrollPauses, pauseLoop, bandOut, zonePauseStart,
          zonePauseEnd, zoneProgressCenter, PAUSE_ZONES, totalPauseAmount,
          sectionIndexOf, resolveSectionIndex, sectionTable], by
        norm_num [applyScrollPauses, pauseLoop, bandOut, zonePauseStart,
          zonePauseEnd, zoneProgressCenter, PAUSE_ZONES, totalPauseAmount,
          currentSectionOf, resolveSection, sectionTable, sectionNames]⟩
    · exact ⟨891/1400, by norm_num, by norm_num, by
        norm_num [applyScrollPauses, pauseLoop, bandOut, zonePauseStart,
          zonePauseEnd, zoneProgressCenter, PAUSE_ZONES, totalPauseAmount,
          sectionIndexOf, resolveSectionIndex, sectionTable], by
        norm_num [applyScrollPauses, pauseLoop, bandOut, zonePauseStart,
          zonePauseEnd, zoneProgressCenter, PAUSE_ZONES, totalPauseAmount,
          currentSectionOf, resolveSection, sectionTable, sectionNames]⟩
    · exact ⟨5/7, by norm_num, by norm_num, by
        norm_num [applyScrollPauses, pauseLoop, bandOut, zonePauseStart,
          zonePauseEnd, zoneProgressCenter, PAUSE_ZONES, totalPauseAmount,
          sectionIndexOf, resolveSectionIndex, sectionTable], by
        norm_num [applyScrollPauses, pauseLoop, bandOut, zonePauseStart,
          zonePauseEnd, zoneProgressCenter, PAUSE_ZONES, totalPauseAmount,
          currentSectionOf, resolveSection, sectionTable, sectionNames]⟩
    · exact ⟨1091/1400, by norm_num, by norm_num, by
        norm_num [applyScrollPauses, pauseLoop, bandOut, zonePauseStart,
          zonePauseEnd, zoneProgressCenter, PAUSE_ZONES, totalPauseAmount,
          sectionIndexOf, resolveSectionIndex, sectionTable], by
        norm_num [applyScrollPauses, pauseLoop, bandOut, zonePauseStart,
          zonePauseEnd, zoneProgressCenter, PAUSE_ZONES, totalPauseAmount,
          currentSectionOf, resolveSection, sectionTable, sectionNames]⟩
    · exact ⟨6/7, by norm_num, by norm_num, by
        norm_num [applyScrollPauses, pauseLoop, bandOut, zonePauseStart,
          zonePauseEnd, zoneProgressCenter, PAUSE_ZONES, totalPauseAmount,
          sectionIndexOf, resolveSectionIndex, sectionTable], by
        norm_num [applyScrollPauses, pauseLoop, bandOut, zonePauseStart,
          zonePauseEnd, zoneProgressCenter, PAUSE_ZONES, totalPauseAmount,
          currentSectionOf, resolveSection, sectionTable, sectionNames]⟩
    · exact ⟨1291/1400, by norm_num, by norm_num, by
        norm_num [applyScrollPauses, pauseLoop, bandOut, zonePauseStart,
          zonePauseEnd, zoneProgressCenter, PAUSE_ZONES, totalPauseAmount,
          sectionIndexOf, resolveSectionIndex, sectionTable], by
        norm_num [applyScrollPauses, pauseLoop, bandOut, zonePauseStart,
          zonePauseEnd, zoneProgressCenter, PAUSE_ZONES, totalPauseAmount,
          currentSectionOf, resolveSection, sectionTable, sectionNames]⟩

/-- Witness for C2: the monotone part at `(0, 1)` and the coverage part
at the last section. -/
theorem c2_witness :
    sectionIndexOf (applyScrollPauses 0 * 7000) ≤
      sectionIndexOf (applyScrollPauses 1 * 7000) ∧
    (∃ r : ℚ, 0 ≤ r ∧ r ≤ 1 ∧
      sectionIndexOf (applyScrollPauses r * 7000)
        = ((⟨13, by norm_num⟩ : Fin 14) : ℕ) ∧
      currentSectionOf (applyScrollPauses r * 7000)
        = sectionNames.getD ((⟨13, by norm_num⟩ : Fin 14) : ℕ) "") :=
  ⟨c2_section_sweep.1 0 1 (by norm_num) (by norm_num) (by norm_num),
   c2_section_sweep.2 ⟨13, by norm_num⟩⟩

/-- Claim C1 (code bug): the division
`scrolled / scrollableDistance` in `handleScroll` is *not* guarded.
With zero scrollable distance and zero scroll offset it evaluates
`0 / 0 = NaN`, which passes through `Math.max(0, Math.min(1, ·))`, the
pause transform and the `* 7000` scaling, so `NaN` is stored in
`scrollState.cameraZ` — the spec's "treat zero scrollable distance as
progress 0" is not implemented. -/
theorem c1_unguarded_division_nan :
    rawProgressJS (.fin 0) (.fin 0) = JSVal.nan ∧
    (handleScrollStoresJS (.fin 0) (.fin 800) (.fin 800) (.fin 50)
      (.fin 0) (.fin 0)).2.1 = JSVal.nan := by
  constructor
  · decide
  · norm_num [handleScrollStoresJS, applyScrollPausesJS, pauseLoopJS,
      rawProgressJS, PAUSE_ZONES, totalPauseAmount, JSVal.sub, JSVal.neg,
      JSVal.add, JSVal.mul, JSVal.div, JSVal.le, JSVal.lt, JSVal.jmin,
      JSVal.jmax]

/-- Claim C5: `smoothDamp` returns
`current + (target - current) * (1 - exp(-smoothingRate * deltaSeconds * 60))`,
never overshoots for `smoothingRate ∈ (0, 2]` and `deltaSeconds > 0`
(the result lies between `current` and `target` inclusive), and equals
`target` exactly only when it is already there. -/
theorem c5_smoothDamp_contract (current target smoothing delta : ℝ)
    (h₁ : 0 < smoothing) (_h₂ : smoothing ≤ 2) (h₃ : 0 < delta) :
    smoothDamp current target smoothing delta
      = current + (target - current) * (1 - Real.exp (-smoothing * delta * 60)) ∧
    min current target ≤ smoothDamp current target smoothing delta ∧
    smoothDamp current target smoothing delta ≤ max current target ∧
    (smoothDamp current target smoothing delta = target ↔ current = target) := by
  have hx : 0 < smoothing * delta * 60 := by positivity
  have hlt : Real.exp (-smoothing * delta * 60) < 1 := by
    rw [show -smoothing * delta * 60 = -(smoothing * delta * 60) by ring]
    calc Real.exp (-(smoothing * delta * 60)) < Real.exp 0 :=
          Real.exp_lt_exp.mpr (by linarith)
      _ = 1 := Real.exp_zero
  have hpos : 0 < Real.exp (-smoothing * delta * 60) := Real.exp_pos _
  refine ⟨rfl, ?_, ?_, ?_⟩
  · rcases le_total current target with h | h
    · rw [min_eq_left h]
      have := mul_nonneg (sub_nonneg.mpr h)
        (by linarith : (0:ℝ) ≤ 1 - Real.exp (-smoothing * delta * 60))
      simp only [smoothDamp]
      linarith
    · rw [min_eq_right h]
      have := mul_nonneg (sub_nonneg.mpr h) hpos.le
      simp only [smoothDamp]
      nlinarith
  · rcases le_total current target with h | h
    · rw [max_eq_right h]
      have := mul_nonneg (sub_nonneg.mpr h) hpos.le
      simp only [smoothDamp]
      nlinarith
    · rw [max_eq_left h]
      have := mul_nonneg (sub_nonneg.mpr h)
        (by linarith : (0:ℝ) ≤ 1 - Real.exp (-smoothing * delta * 60))
      simp only [smoothDamp]
      nlinarith
  · constructor
    · intro hEq
      simp only [smoothDamp] at hEq
      have h0 : (current - target) * Real.exp (-smoothing * delta * 60) = 0 := by
        linear_combination hEq
      rcases mul_eq_zero.mp h0 with h | h
      · linarith [sub_eq_zero.mp h]
      · exact absurd h (ne_of_gt hpos)
    · intro hEq
      simp only [smoothDamp, hEq]
      ring

/-- Witness for C5 at `current = 0`, `target = 1`,
`smoothing = delta = 1`. -/
theorem c5_witness :
    0 < (1:ℝ) ∧ (1:ℝ) ≤ 2 ∧ 0 < (1:ℝ) ∧
    (smoothDamp 0 1 1 1
        = 0 + (1 - 0) * (1 - Real.exp (-1 * 1 * 60)) ∧
      min (0:ℝ) 1 ≤ smoothDamp 0 1 1 1 ∧
      smoothDamp 0 1 1 1 ≤ max (0:ℝ) 1 ∧
      (smoothDamp 0 1 1 1 = 1 ↔ (0:ℝ) = 1)) :=
  ⟨by norm_num, by norm_num, by norm_num,
   c5_smoothDamp_contract 0 1 1 1 (by norm_num) (by norm_num) (by norm_num)⟩

/-- Claim C8: whenever the damped opacity of a `ParticleSystem` is at or
below the `0.01` threshold, the frame sets the mesh's `visible` flag to
`false` and returns before the per-particle loop: every particle and
every instance matrix is left exactly as it was. -/
theorem c8_invisibility_gating (zStart zEnd spread size baseOpacity
    cameraZ delta currentOpacity : ℝ) (particles : List Particle)
    (matrices : List InstanceMatrix)
    (h : smoothDamp currentOpacity
        (targetOpacityOf zStart zEnd baseOpacity cameraZ) (1/10) delta
      ≤ 1/100) :
    (particleSystemFrame zStart zEnd spread size baseOpacity cameraZ delta
        currentOpacity particles matrices).visible = false ∧
    (particleSystemFrame zStart zEnd spread size baseOpacity cameraZ delta
        currentOpacity particles matrices).particles = particles ∧
    (particleSystemFrame zStart zEnd spread size baseOpacity cameraZ delta
        currentOpacity particles matrices).matrices = matrices := by
  dsimp only [particleSystemFrame]
  rw [if_neg (not_lt.mpr h)]
  exact ⟨rfl, rfl, rfl⟩

/-- Witness for C8: a far-away camera (`cameraZ = 10000` against a scene
spanning `[0, 100]`) with damped opacity 0. -/
theorem c8_witness :
    (smoothDamp 0 (targetOpacityOf 0 100 (3/5) 10000) (1/10) 1 ≤ 1/100) ∧
    ((particleSystemFrame 0 100 500 2 (3/5) 10000 1 0
        [⟨1, 2, 3, 4, 5, 6, 1⟩] [⟨1, 2, 3, 2⟩]).visible = false ∧
     (particleSystemFrame 0 100 500 2 (3/5) 10000 1 0
        [⟨1, 2, 3, 4, 5, 6, 1⟩] [⟨1, 2, 3, 2⟩]).particles
       = [⟨1, 2, 3, 4, 5, 6, 1⟩] ∧
     (particleSystemFrame 0 100 500 2 (3/5) 10000 1 0
        [⟨1, 2, 3, 4, 5, 6, 1⟩] [⟨1, 2, 3, 2⟩]).matrices
       = [⟨1, 2, 3, 2⟩]) := by
  have habs : |(10000:ℝ) - (0 + 100) / 2| = 9950 := by
    rw [abs_of_nonneg] <;> norm_num
  have ht : targetOpacityOf 0 100 (3/5) 10000 = 0 := by
    dsimp only [targetOpacityOf]
    rw [habs, if_neg (by norm_num)]
  have h : smoothDamp 0 (targetOpacityOf 0 100 (3/5) 10000) (1/10) 1
      ≤ 1/100 := by
    rw [ht]
    simp only [smoothDamp]
    norm_num
  exact ⟨h, c8_invisibility_gating 0 100 500 2 (3/5) 10000 1 0
    [⟨1, 2, 3, 4, 5, 6, 1⟩] [⟨1, 2, 3, 2⟩] h⟩

end Spectra
